import Mathlib

/-!
Shallow embedding of the conduit-connector-http source connector
(`source.go` and the JS helper layer), together with theorems about its
poll/pagination engine, fallback record synthesis, record conversion and
the goja scripting bridge.

Conventions of the embedding:
* Go byte slices (`[]byte`, `opencdc.Position`, `opencdc.RawData`) are
  modelled as `String` (an abstract byte sequence).
* Go maps are modelled as association lists with Go-map assignment
  (`setAssoc`) and lookup (`lookupAssoc`) semantics.
* Wall-clock reads (`time.Now().Unix()`, `time.Now()` inside
  `Metadata.SetReadAt`) are explicit integer parameters.
* Fallible Go functions returning `(T, error)` become `Except String T`;
  functions that mutate `Source` and return `error` become
  `SourceState × Option String`.
* The HTTP transport and the user scripts are oracles passed in as
  function parameters.
-/

namespace Conn

/-- Go-map assignment `m[k] = v` on an association list: replaces the
binding if the key is present, otherwise appends it. -/
def setAssoc {α : Type} : List (String × α) → String → α → List (String × α)
  | [], k, v => [(k, v)]
  | p :: rest, k, v => if p.1 == k then (k, v) :: rest else p :: setAssoc rest k v

/-- Go-map lookup `m[k]` on an association list. -/
def lookupAssoc {α : Type} (m : List (String × α)) (k : String) : Option α :=
  (m.find? (fun p => p.1 == k)).map (fun p => p.2)

theorem lookupAssoc_setAssoc_self {α : Type} (m : List (String × α)) (k : String) (v : α) :
    lookupAssoc (setAssoc m k v) k = some v := by
  induction m with
  | nil => simp [setAssoc, lookupAssoc]
  | cons p rest ih =>
    by_cases hp : p.1 == k
    · simp [setAssoc, hp, lookupAssoc]
    · simp only [setAssoc, hp, Bool.false_eq_true, if_false]
      simp only [lookupAssoc, List.find?] at ih ⊢
      simp [hp, ih]

theorem lookupAssoc_setAssoc_ne {α : Type} (m : List (String × α)) (k k' : String) (v : α)
    (h : k' ≠ k) : lookupAssoc (setAssoc m k v) k' = lookupAssoc m k' := by
  induction m with
  | nil =>
    simp only [setAssoc, lookupAssoc, List.find?]
    have hkk : (k == k') = false := by simpa [beq_iff_eq] using fun hh => h hh.symm
    simp [hkk]
  | cons p rest ih =>
    by_cases hp : p.1 == k
    · have hkk : (k == k') = false := by simpa [beq_iff_eq] using fun hh => h hh.symm
      have hpk : p.1 = k := by simpa [beq_iff_eq] using hp
      simp [setAssoc, hp, lookupAssoc, List.find?, hkk, hpk]
    · simp only [setAssoc, hp, Bool.false_eq_true, if_false]
      simp only [lookupAssoc, List.find?] at ih ⊢
      by_cases hq : p.1 == k'
      · simp [hq]
      · simp [hq, ih]

/-- Dynamic Go value (`interface{}` / `any`) as it reaches the connector
from the goja runtime: `opencdc.RawData` bytes, a `map[string]any`
(string-keyed map), plain strings and integers, and `nil`/absent. -/
inductive GoValue where
  | rawData (s : String)
  | strMap (m : List (String × GoValue))
  | str (s : String)
  | int (n : Int)
  | null

/-- `opencdc.Data`: either raw bytes or structured (string-keyed) data.
The Go interface value may be `nil`, modelled as `Option Data` at use
sites. -/
inductive Data where
  | raw (s : String)
  | structured (m : List (String × GoValue))

/-- `opencdc.Operation`; `unset` is the Go zero value 0, the named
operations are the four recognized tokens. -/
inductive Operation where
  | unset
  | create
  | update
  | delete
  | snapshot
deriving DecidableEq

/-- Modelled from the spec: `opencdc.Operation.UnmarshalText` lives in the
conduit-commons dependency, outside this repository. The spec's data model
fixes its behavior: Operation must be "one of {create, update, delete,
snapshot, unset/empty}", and "an Operation string that fails to map to a
recognized token is a hard conversion error". -/
def Operation.unmarshalText (s : String) : Except String Operation :=
  if s = "" then .ok .unset
  else if s = "create" then .ok .create
  else if s = "update" then .ok .update
  else if s = "delete" then .ok .delete
  else if s = "snapshot" then .ok .snapshot
  else .error ("operation " ++ s ++ " does not belong to Operation values")

/-- `jsPayload` from the JS helper: Before/After as dynamic values. -/
structure JsPayload where
  before : GoValue := .null
  after : GoValue := .null

/-- `jsRecord`: the intermediary representation handed back by the
JavaScript transform. -/
structure JsRecord where
  position : String := ""
  operation : String := ""
  metadata : List (String × String) := []
  key : GoValue := .null
  payload : JsPayload := {}

/-- `Request`: what `getRequestData` scripts return. -/
structure Request where
  url : String

/-- `Response`: what `parseResponse` scripts return. -/
structure Response where
  customData : List (String × GoValue)
  records : List JsRecord

/-- `opencdc.Change`. -/
structure Change where
  before : Option Data
  after : Option Data

/-- `opencdc.Record` as produced by this connector. -/
structure Record where
  position : String
  operation : Operation
  metadata : List (String × String)
  key : Option Data
  payload : Change

/-- An HTTP response as seen by `fillBuffer`: status code, headers
(each key mapping to a list of values) and the body; `body = none`
models an `io.ReadAll` failure. -/
structure HttpResponse where
  statusCode : Nat
  header : List (String × List String)
  body : Option String

/-- `opencdc.MetadataReadAt`, the key written by `Metadata.SetReadAt`. -/
def readAtKey : String := "opencdc.readAt"

/-- `strings.Join(val, ",")`. -/
def joinComma (vs : List String) : String := String.intercalate "," vs

/-- One iteration of the header loop in `Source.headersToMetadata`:
`meta[key] = strings.Join(val, ",")`. -/
def headersStep (meta : List (String × String)) (kv : String × List String) :
    List (String × String) :=
  setAssoc meta kv.1 (joinComma kv.2)

/-- `Source.headersToMetadata`: copies every header into the metadata,
joining multi-valued headers with a comma, then sets the read-at entry
(`SetReadAt(time.Now())`, nanosecond timestamp `readAtNano`). -/
def headersToMetadata (header : List (String × List String)) (readAtNano : Int) :
    List (String × String) :=
  setAssoc (header.foldl headersStep []) readAtKey (toString readAtNano)

/-- `maps.Copy(dst, src)`: every binding of `src` is written into `dst`. -/
def mapsCopy (dst src : List (String × String)) : List (String × String) :=
  src.foldl (fun m kv => setAssoc m kv.1 kv.2) dst

/-- The `toSDKData` closure inside `Source.toSDKRecord`: an
`opencdc.RawData` value is kept, a `map[string]interface{}` becomes
structured data, and every other shape yields `nil`. -/
def toSDKData : GoValue → Option Data
  | .rawData s => some (.raw s)
  | .strMap m => some (.structured m)
  | _ => none

/-- `Source.toSDKRecord`: unmarshal the operation string (errors abort
conversion), merge response-header metadata with the record's own
metadata, and convert Key/Payload fields through `toSDKData`. -/
def toSDKRecord (jsRec : JsRecord) (header : List (String × List String))
    (readAtNano : Int) : Except String Record :=
  match Operation.unmarshalText jsRec.operation with
  | .error e => .error ("could not unmarshal operation: " ++ e)
  | .ok op =>
    .ok { position := jsRec.position
          operation := op
          metadata := mapsCopy (headersToMetadata header readAtNano) jsRec.metadata
          key := toSDKData jsRec.key
          payload := { before := toSDKData jsRec.payload.before
                       after := toSDKData jsRec.payload.after } }

/-- `Source.parseAsSingleRecord`: the fallback record synthesized when no
response-parser script is configured. `nowUnix` is `time.Now().Unix()`,
`readAtNano` the clock read inside `headersToMetadata`. -/
def parseAsSingleRecord (header : List (String × List String)) (body : String)
    (nowUnix readAtNano : Int) : Record :=
  { payload := { before := none, after := some (.raw body) }
    metadata := headersToMetadata header readAtNano
    operation := .create
    position := "unix-" ++ toString nowUnix
    key := some (.raw (toString nowUnix)) }

/-- The mutable fields of `Source` used by the poll engine. -/
structure SourceState where
  lastResponseData : List (String × GoValue)
  buffer : List Record
  lastPosition : String

/-- A request-builder behavior: `build(ctx, previousResponseData,
position)` (the context is implicit). -/
def BuilderFn : Type := List (String × GoValue) → String → Except String Request

/-- A response-parser behavior: `parse(ctx, responseBytes)`. -/
def ParseFn : Type := String → Except String Response

/-- `Source.getRequestData`: without a request builder the request is the
configured URL, otherwise the builder is invoked with the stored
`lastResponseData` and `lastPosition`. -/
def getRequestData (cfgURL : String) (rb : Option BuilderFn) (s : SourceState) :
    Except String Request :=
  match rb with
  | none => .ok { url := cfgURL }
  | some build => build s.lastResponseData s.lastPosition

/-- The record-conversion loop of `Source.parseResponse`: each converted
record is appended to the buffer; the first conversion failure stops the
loop with a wrapped error, keeping the records appended so far. -/
def convertLoop (header : List (String × List String)) (readAtNano : Int) :
    List Record → List JsRecord → List Record × Option String
  | buf, [] => (buf, none)
  | buf, jr :: rest =>
    match toSDKRecord jr header readAtNano with
    | .error e => (buf, some ("failed converting JS record to opencdc.Record: " ++ e))
    | .ok rec => convertLoop header readAtNano (buf ++ [rec]) rest

/-- `Source.parseResponse`: read the body; with no parser configured,
append the single fallback record; otherwise run the parser, convert its
records into the buffer, and on full success overwrite
`lastResponseData` with the response's CustomData. -/
def parseResponse (pf : Option ParseFn) (resp : HttpResponse)
    (nowUnix readAtNano : Int) (s : SourceState) : SourceState × Option String :=
  match resp.body with
  | none => (s, some "error reading body for response")
  | some body =>
    match pf with
    | none =>
      ({ s with buffer := s.buffer ++ [parseAsSingleRecord resp.header body nowUnix readAtNano] },
       none)
    | some parse =>
      match parse body with
      | .error e => (s, some e)
      | .ok rd =>
        match convertLoop resp.header readAtNano s.buffer rd.records with
        | (buf, none) => ({ s with buffer := buf, lastResponseData := rd.customData }, none)
        | (buf, some e) => ({ s with buffer := buf }, some e)

/-- `Source.buildError`: the error for a status ≥ 300 response, carrying
the status code and the response body ("unknown" if the body could not
be read). -/
def buildError (resp : HttpResponse) : String :=
  "expected response status 200, but got status=" ++ toString resp.statusCode ++
    ", cause=" ++ (match resp.body with | some b => b | none => "unknown")

/-- `Source.fillBuffer`: build the request, issue the HTTP call through
the transport oracle `doRequest`, fail on status ≥ 300, otherwise parse
the response (wrapping any parse error). -/
def fillBuffer (cfgURL : String) (rb : Option BuilderFn) (pf : Option ParseFn)
    (doRequest : Request → Except String HttpResponse)
    (nowUnix readAtNano : Int) (s : SourceState) : SourceState × Option String :=
  match getRequestData cfgURL rb s with
  | .error e => (s, some e)
  | .ok req =>
    match doRequest req with
    | .error e => (s, some ("error getting data from URL: " ++ e))
    | .ok resp =>
      if resp.statusCode ≥ 300 then (s, some (buildError resp))
      else
        match parseResponse pf resp nowUnix readAtNano s with
        | (s', some e) => (s', some ("failed parsing response: " ++ e))
        | (s', none) => (s', none)

/-- Outcome of `Source.getRecord`: a record, the `sdk.ErrBackoffRetry`
sentinel (paired with an empty record in Go), or an error. -/
inductive ReadResult where
  | record (r : Record)
  | backoffRetry
  | failed (e : String)

/-- `Source.getRecord`. `limiterWait` is the rate limiter's outcome
(`none` = admitted, `some e` = context error). The returned `Bool` is
`true` exactly when the empty-buffer poll path ran, i.e. when the
limiter was waited on and the HTTP transport could be consulted. -/
def getRecord (cfgURL : String) (rb : Option BuilderFn) (pf : Option ParseFn)
    (doRequest : Request → Except String HttpResponse) (limiterWait : Option String)
    (nowUnix readAtNano : Int) (s : SourceState) : ReadResult × SourceState × Bool :=
  match s.buffer with
  | r :: rest => (.record r, { s with buffer := rest, lastPosition := r.position }, false)
  | [] =>
    match limiterWait with
    | some e => (.failed e, s, true)
    | none =>
      match fillBuffer cfgURL rb pf doRequest nowUnix readAtNano s with
      | (s', some e) => (.failed e, s', true)
      | (s', none) =>
        match s'.buffer with
        | [] => (.backoffRetry, s', true)
        | r :: rest => (.record r, { s' with buffer := rest, lastPosition := r.position }, true)

/-- The shapes `Export()` can take that the connector distinguishes by
type assertion: a `*Request`, a `*Response`, or anything else. -/
inductive GojaExport where
  | request (r : Request)
  | response (r : Response)
  | other

/-- What a goja call hands back: `result` is a `goja.Value` whose Go
dynamic type is `typeName` (what `%T` prints) and whose `Export()` is
`exported`. -/
structure GojaValue where
  typeName : String
  exported : GojaExport

/-- The result-handling tail of `jsRequestBuilder.build`: a script error
propagates; a non-`*Request` export fails with the `%T`-formatted
type-mismatch message; a `*Request` export is returned. -/
def jsRequestBuilderBuild (callResult : Except String GojaValue) : Except String Request :=
  match callResult with
  | .error e => .error e
  | .ok v =>
    match v.exported with
    | .request r => .ok r
    | _ => .error ("js function expected to return *http.Request, but returned: " ++ v.typeName)

/-- The result-handling tail of `jsResponseParser.parse`, symmetric to
`jsRequestBuilderBuild` with `*Response` expected. -/
def jsResponseParserParse (callResult : Except String GojaValue) : Except String Response :=
  match callResult with
  | .error e => .error e
  | .ok v =>
    match v.exported with
    | .response r => .ok r
    | _ => .error ("js function expected to return *http.Response, but returned: " ++ v.typeName)

/-- The global bindings of one goja runtime. -/
def Globals : Type := List (String × GoValue)

/-- One goja context (`gojaContext`): a runtime identified by its mutable
global state, with the compiled function handle implicit. -/
structure GojaContext where
  globals : Globals

/-- Behavior of a compiled `getRequestData` script: reads and updates the
runtime's globals and produces the call result for the three arguments
(config is implicit, `prev` is previousResponseData, `pos` the
position). -/
def BuildScript : Type :=
  Globals → List (String × GoValue) → String → Globals × Except String GojaValue

/-- Behavior of a compiled `parseResponse` script over the runtime's
globals and the response bytes. -/
def ParseScript : Type := Globals → String → Globals × Except String GojaValue

/-- `jsRequestBuilder`: holds the single goja context created by
`newJSRequestBuilder` and reused for every `build` call. -/
structure JsRequestBuilder where
  gojaCtx : GojaContext

/-- `newJSRequestBuilder`: creates the builder's one context; its initial
globals are determined by running the script source once. -/
def newJSRequestBuilder (initGlobals : Globals) : JsRequestBuilder :=
  { gojaCtx := { globals := initGlobals } }

/-- `jsResponseParser`: holds the single goja context created by
`newJSResponseParser`, reused for every `parse` call. -/
structure JsResponseParserState where
  gojaCtx : GojaContext

/-- `newJSResponseParser`, analogous to `newJSRequestBuilder`. -/
def newJSResponseParserState (initGlobals : Globals) : JsResponseParserState :=
  { gojaCtx := { globals := initGlobals } }

/-- One `jsRequestBuilder.build` invocation: runs the script in the
builder's context (whose globals it may mutate) and type-checks the
result. Returns the builder as left by the call. -/
def jsBuilderCall (script : BuildScript) (b : JsRequestBuilder)
    (prev : List (String × GoValue)) (pos : String) :
    JsRequestBuilder × Except String Request :=
  let res := script b.gojaCtx.globals prev pos
  ({ gojaCtx := { globals := res.1 } }, jsRequestBuilderBuild res.2)

/-- One `jsResponseParser.parse` invocation, analogous to
`jsBuilderCall`. -/
def jsParserCall (script : ParseScript) (p : JsResponseParserState) (bytes : String) :
    JsResponseParserState × Except String Response :=
  let res := script p.gojaCtx.globals bytes
  ({ gojaCtx := { globals := res.1 } }, jsResponseParserParse res.2)

/-- The two script contexts owned by one `Source`: the request builder's
and the response parser's, created independently in `Open`. -/
structure JsBridge where
  builder : JsRequestBuilder
  parserSt : JsResponseParserState

/-- A builder call on the source's bridge updates only the builder's
context. -/
def bridgeBuild (script : BuildScript) (st : JsBridge)
    (prev : List (String × GoValue)) (pos : String) : JsBridge × Except String Request :=
  let r := jsBuilderCall script st.builder prev pos
  ({ st with builder := r.1 }, r.2)

/-- A parser call on the source's bridge updates only the parser's
context. -/
def bridgeParse (script : ParseScript) (st : JsBridge) (bytes : String) :
    JsBridge × Except String Response :=
  let r := jsParserCall script st.parserSt bytes
  ({ st with parserSt := r.1 }, r.2)

theorem lookup_foldl_headers_not_mem (l : List (String × List String))
    (acc : List (String × String)) (k : String) (h : ∀ kv ∈ l, kv.1 ≠ k) :
    lookupAssoc (l.foldl headersStep acc) k = lookupAssoc acc k := by
  induction l generalizing acc with
  | nil => rfl
  | cons q qs ih =>
    simp only [List.foldl_cons]
    rw [ih _ (fun kv hkv => h kv (List.mem_cons_of_mem q hkv))]
    exact lookupAssoc_setAssoc_ne acc q.1 k (joinComma q.2) (fun hh => h q (by simp) hh.symm)

theorem lookup_foldl_headers_mem (header : List (String × List String))
    (acc : List (String × String)) (k : String) (vs : List String)
    (hnodup : (header.map Prod.fst).Nodup) (hmem : (k, vs) ∈ header) :
    lookupAssoc (header.foldl headersStep acc) k = some (joinComma vs) := by
  induction header generalizing acc with
  | nil => simp at hmem
  | cons p rest ih =>
    simp only [List.map_cons, List.nodup_cons] at hnodup
    rcases List.mem_cons.mp hmem with heq | hmem'
    · simp only [List.foldl_cons]
      have hnotin : ∀ kv ∈ rest, kv.1 ≠ k := by
        intro kv hkv hkk
        have hmm : kv.1 ∈ rest.map Prod.fst := List.mem_map_of_mem Prod.fst hkv
        rw [hkk] at hmm
        rw [show p.1 = k by rw [← heq]] at hnodup
        exact hnodup.1 hmm
      rw [lookup_foldl_headers_not_mem rest _ k hnotin]
      have hstep : headersStep acc p = setAssoc acc k (joinComma vs) := by
        rw [headersStep, show p.1 = k by rw [← heq], show p.2 = vs by rw [← heq]]
      rw [hstep]
      exact lookupAssoc_setAssoc_self acc k (joinComma vs)
    · exact ih _ hnodup.2 hmem'

/-- Shorthand for a source state with nothing buffered and no carry
state, used by concrete witnesses. -/
def sEmpty : SourceState := { lastResponseData := [], buffer := [], lastPosition := "" }

/-- C4: a read call made while the buffer is non-empty returns the head
record of the FIFO buffer, removes it, and advances `lastPosition` to
that record's position; the poll path does not run (the `false` flag:
no limiter wait, no HTTP request), and all other state is unchanged. -/
theorem getRecord_nonempty_buffer_pops_head
    (cfgURL : String) (rb : Option BuilderFn) (pf : Option ParseFn)
    (doRequest : Request → Except String HttpResponse) (limiterWait : Option String)
    (nowUnix readAtNano : Int) (s : SourceState) (r : Record) (rest : List Record)
    (hbuf : s.buffer = r :: rest) :
    getRecord cfgURL rb pf doRequest limiterWait nowUnix readAtNano s
      = (.record r, { s with buffer := rest, lastPosition := r.position }, false) := by
  simp only [getRecord, hbuf]

/-- Concrete record used by the C4 witness. -/
def rW4 : Record :=
  { position := "p1", operation := .create, metadata := [], key := none,
    payload := { before := none, after := none } }

/-- Concrete state with one buffered record, for the C4 witness. -/
def sW4 : SourceState := { lastResponseData := [], buffer := [rW4], lastPosition := "" }

/-- Witness for C4 at a concrete one-record buffer. -/
theorem getRecord_nonempty_buffer_pops_head_witness :
    getRecord "u" none none (fun _ => .error "no transport") none 0 0 sW4
      = (.record rW4, { sW4 with buffer := [], lastPosition := rW4.position }, false) :=
  getRecord_nonempty_buffer_pops_head "u" none none (fun _ => .error "no transport")
    none 0 0 sW4 rW4 [] rfl

/-- C3: when the buffer is empty, the limiter admits the poll, and the
fill attempt completes without error but still leaves the buffer empty,
the read call returns the `sdk.ErrBackoffRetry` sentinel, not an
ordinary error. -/
theorem getRecord_backoff_on_empty_fill
    (cfgURL : String) (rb : Option BuilderFn) (pf : Option ParseFn)
    (doRequest : Request → Except String HttpResponse)
    (nowUnix readAtNano : Int) (s s' : SourceState)
    (hbuf : s.buffer = [])
    (hfill : fillBuffer cfgURL rb pf doRequest nowUnix readAtNano s = (s', none))
    (hempty : s'.buffer = []) :
    getRecord cfgURL rb pf doRequest none nowUnix readAtNano s
      = (.backoffRetry, s', true) := by
  simp only [getRecord, hbuf, hfill, hempty]

/-- Parser returning zero records, for the C3 witness. -/
def pfW3 : ParseFn := fun _ => .ok { customData := [], records := [] }

/-- Empty successful response for the C3 witness. -/
def respW3 : HttpResponse := { statusCode := 200, header := [], body := some "[]" }

/-- Witness for C3: a cycle whose parser returns zero records ends in
the backoff-retry sentinel. -/
theorem getRecord_backoff_on_empty_fill_witness :
    getRecord "u" none (some pfW3) (fun _ => .ok respW3) none 0 0 sEmpty
      = (.backoffRetry, sEmpty, true) :=
  getRecord_backoff_on_empty_fill "u" none (some pfW3) (fun _ => .ok respW3)
    0 0 sEmpty sEmpty rfl rfl rfl

/-- C7: a poll cycle whose HTTP call returns status ≥ 300 fails with the
`buildError` message, which carries the status code and the response
body (or "unknown" when the body could not be read); the error reaches
the read call unchanged and the engine state is untouched (the single
`doRequest` consultation per cycle is structural: no internal retry). -/
theorem getRecord_http_error_status
    (cfgURL : String) (rb : Option BuilderFn) (pf : Option ParseFn)
    (doRequest : Request → Except String HttpResponse)
    (nowUnix readAtNano : Int) (s : SourceState) (req : Request) (resp : HttpResponse)
    (hbuf : s.buffer = [])
    (hreq : getRequestData cfgURL rb s = .ok req)
    (hresp : doRequest req = .ok resp)
    (hstatus : resp.statusCode ≥ 300) :
    getRecord cfgURL rb pf doRequest none nowUnix readAtNano s
      = (.failed (buildError resp), s, true) ∧
    buildError resp = "expected response status 200, but got status=" ++
      toString resp.statusCode ++ ", cause=" ++ resp.body.getD "unknown" := by
  have hfill : fillBuffer cfgURL rb pf doRequest nowUnix readAtNano s
      = (s, some (buildError resp)) := by
    simp only [fillBuffer, hreq, hresp]
    rw [if_pos hstatus]
  refine ⟨by simp only [getRecord, hbuf, hfill], ?_⟩
  simp only [buildError]
  cases resp.body <;> rfl

/-- Failing response for the C7 witness. -/
def respW7 : HttpResponse := { statusCode := 404, header := [], body := some "not found" }

/-- Witness for C7 at a concrete 404 response. -/
theorem getRecord_http_error_status_witness :
    getRecord "u" none none (fun _ => .ok respW7) none 0 0 sEmpty
      = (.failed (buildError respW7), sEmpty, true) ∧
    buildError respW7 = "expected response status 200, but got status=" ++
      toString respW7.statusCode ++ ", cause=" ++ respW7.body.getD "unknown" :=
  getRecord_http_error_status "u" none none (fun _ => .ok respW7) 0 0 sEmpty
    { url := "u" } respW7 rfl rfl rfl (by decide)

/-- C6: Key and Payload.Before/After conversion is total: a RawData
value stays raw, a string-keyed map becomes structured data, every
other shape becomes absent (`none`), and whenever the operation token
unmarshals, `toSDKRecord` succeeds with exactly these conversions for
all three fields, whatever their shapes. -/
theorem toSDKData_shape_cases :
    (∀ s : String, toSDKData (.rawData s) = some (.raw s)) ∧
    (∀ m : List (String × GoValue), toSDKData (.strMap m) = some (.structured m)) ∧
    (∀ v : GoValue, (∀ s, v ≠ .rawData s) → (∀ m, v ≠ .strMap m) → toSDKData v = none) ∧
    (∀ (jr : JsRecord) (hd : List (String × List String)) (rAt : Int) (op : Operation),
      Operation.unmarshalText jr.operation = .ok op →
      toSDKRecord jr hd rAt = .ok
        { position := jr.position, operation := op,
          metadata := mapsCopy (headersToMetadata hd rAt) jr.metadata,
          key := toSDKData jr.key,
          payload := { before := toSDKData jr.payload.before,
                       after := toSDKData jr.payload.after } }) := by
  refine ⟨fun s => rfl, fun m => rfl, ?_, ?_⟩
  · intro v h1 h2
    cases v with
    | rawData s => exact absurd rfl (h1 s)
    | strMap m => exact absurd rfl (h2 m)
    | str s => rfl
    | int n => rfl
    | null => rfl
  · intro jr hd rAt op hop
    simp only [toSDKRecord, hop]

/-- Witness for C6: a plain string key becomes absent; a record with a
string key, raw before and structured after converts with exactly those
fields. -/
theorem toSDKData_shape_cases_witness :
    toSDKData (GoValue.str "plain") = none ∧
    toSDKRecord
        { operation := "create", key := GoValue.str "plain",
          payload := { before := GoValue.rawData "b", after := GoValue.strMap [] } }
        [] 0
      = .ok
        { position := "", operation := .create,
          metadata := mapsCopy (headersToMetadata [] 0) [],
          key := none,
          payload := { before := some (.raw "b"), after := some (.structured []) } } :=
  ⟨toSDKData_shape_cases.2.2.1 (GoValue.str "plain")
      (fun _ h => by cases h) (fun _ h => by cases h),
   toSDKData_shape_cases.2.2.2
      { operation := "create", key := GoValue.str "plain",
        payload := { before := GoValue.rawData "b", after := GoValue.strMap [] } }
      [] 0 .create rfl⟩

/-- C5: the Operation string "update" converts to the canonical update
operation; an unrecognized string like "frobnicate" makes `toSDKRecord`
fail, and a poll cycle whose parsed response contains such a record
fails with a conversion error. -/
theorem toSDKRecord_operation_mapping :
    (Operation.unmarshalText "update" = .ok .update) ∧
    (∀ (jr : JsRecord) (hd : List (String × List String)) (rAt : Int),
      jr.operation = "update" →
      ∃ r, toSDKRecord jr hd rAt = .ok r ∧ r.operation = .update) ∧
    (∀ (jr : JsRecord) (hd : List (String × List String)) (rAt : Int),
      jr.operation = "frobnicate" →
      ∃ e, toSDKRecord jr hd rAt = .error e) ∧
    (∀ (pf : ParseFn) (resp : HttpResponse) (body : String) (rd : Response)
        (nowU rAt : Int) (s : SourceState) (jr : JsRecord),
      resp.body = some body → pf body = .ok rd → rd.records = [jr] →
      jr.operation = "frobnicate" →
      ∃ e, (parseResponse (some pf) resp nowU rAt s).2 = some e) := by
  refine ⟨rfl, ?_, ?_, ?_⟩
  · intro jr hd rAt hop
    exact ⟨{ position := jr.position, operation := .update,
             metadata := mapsCopy (headersToMetadata hd rAt) jr.metadata,
             key := toSDKData jr.key,
             payload := { before := toSDKData jr.payload.before,
                          after := toSDKData jr.payload.after } },
           by simp only [toSDKRecord, hop]; rfl, rfl⟩
  · intro jr hd rAt hop
    exact ⟨"could not unmarshal operation: " ++
             ("operation " ++ "frobnicate" ++ " does not belong to Operation values"),
           by simp only [toSDKRecord, hop]; rfl⟩
  · intro pf resp body rd nowU rAt s jr hbody hpf hrecs hop
    refine ⟨"failed converting JS record to opencdc.Record: " ++
             ("could not unmarshal operation: " ++
               ("operation " ++ "frobnicate" ++ " does not belong to Operation values")), ?_⟩
    have hbad : toSDKRecord jr resp.header rAt
        = .error ("could not unmarshal operation: " ++
            ("operation " ++ "frobnicate" ++ " does not belong to Operation values")) := by
      simp only [toSDKRecord, hop]; rfl
    simp only [parseResponse, hbody, hpf, hrecs, convertLoop, hbad]

/-- Response whose single record has the unrecognized operation, for the
C5 witness. -/
def rdW5 : Response := { customData := [], records := [{ operation := "frobnicate" }] }

/-- Parser returning `rdW5`, for the C5 witness. -/
def pfW5 : ParseFn := fun _ => .ok rdW5

/-- Successful response carrying the C5 witness body. -/
def respW5 : HttpResponse := { statusCode := 200, header := [], body := some "b5" }

/-- Witness for C5: concrete "update" and "frobnicate" records. -/
theorem toSDKRecord_operation_mapping_witness :
    (∃ r, toSDKRecord { operation := "update" } [] 0 = .ok r ∧ r.operation = .update) ∧
    (∃ e, toSDKRecord { operation := "frobnicate" } [] 0 = .error e) ∧
    (∃ e, (parseResponse (some pfW5) respW5 0 0 sEmpty).2 = some e) :=
  ⟨toSDKRecord_operation_mapping.2.1 { operation := "update" } [] 0 rfl,
   toSDKRecord_operation_mapping.2.2.1 { operation := "frobnicate" } [] 0 rfl,
   toSDKRecord_operation_mapping.2.2.2 pfW5 respW5 "b5" rdW5 0 0 sEmpty
     { operation := "frobnicate" } rfl rfl rfl rfl⟩

/-- C8: a script call that returns a proper `*Request` (resp.
`*Response`) instance succeeds with it; any other exported shape fails
with the type-mismatch message naming the expected type and the
returned value's type. -/
theorem jsBuild_jsParse_type_mismatch :
    (∀ (tn : String) (r : Request),
      jsRequestBuilderBuild (.ok { typeName := tn, exported := .request r }) = .ok r) ∧
    (∀ v : GojaValue, (∀ r, v.exported ≠ .request r) →
      jsRequestBuilderBuild (.ok v)
        = .error ("js function expected to return *http.Request, but returned: " ++
            v.typeName)) ∧
    (∀ (tn : String) (r : Response),
      jsResponseParserParse (.ok { typeName := tn, exported := .response r }) = .ok r) ∧
    (∀ v : GojaValue, (∀ r, v.exported ≠ .response r) →
      jsResponseParserParse (.ok v)
        = .error ("js function expected to return *http.Response, but returned: " ++
            v.typeName)) := by
  refine ⟨fun tn r => rfl, ?_, fun tn r => rfl, ?_⟩
  · intro v h
    rcases v with ⟨tn, ex⟩
    cases ex with
    | request r => exact absurd rfl (h r)
    | response r => rfl
    | other => rfl
  · intro v h
    rcases v with ⟨tn, ex⟩
    cases ex with
    | response r => exact absurd rfl (h r)
    | request r => rfl
    | other => rfl

/-- Witness for C8: a successful `*Request` return and a number-shaped
return rejected with the mismatch message. -/
theorem jsBuild_jsParse_type_mismatch_witness :
    jsRequestBuilderBuild (.ok { typeName := "*goja.Object",
                                 exported := .request { url := "https://x" } })
      = .ok { url := "https://x" } ∧
    jsRequestBuilderBuild (.ok { typeName := "goja.valueInt", exported := .other })
      = .error ("js function expected to return *http.Request, but returned: " ++
          "goja.valueInt") ∧
    jsResponseParserParse (.ok { typeName := "goja.valueInt", exported := .other })
      = .error ("js function expected to return *http.Response, but returned: " ++
          "goja.valueInt") :=
  ⟨jsBuild_jsParse_type_mismatch.1 "*goja.Object" { url := "https://x" },
   jsBuild_jsParse_type_mismatch.2.1 { typeName := "goja.valueInt", exported := .other }
     (fun _ h => by cases h),
   jsBuild_jsParse_type_mismatch.2.2.2 { typeName := "goja.valueInt", exported := .other }
     (fun _ h => by cases h)⟩

/-- C1: when the configured parser succeeds and every record converts,
the engine overwrites `lastResponseData` with the parser's CustomData,
and the next `getRequestData` call hands exactly that map to the
request builder (the pagination carry-chain). -/
theorem parseResponse_carry_chain
    (pf : ParseFn) (resp : HttpResponse) (body : String) (rd : Response)
    (nowU rAt : Int) (s s' : SourceState) (cfgURL : String) (b : BuilderFn)
    (hbody : resp.body = some body)
    (hparse : pf body = .ok rd)
    (hok : parseResponse (some pf) resp nowU rAt s = (s', none)) :
    s'.lastResponseData = rd.customData ∧
    getRequestData cfgURL (some b) s' = b rd.customData s'.lastPosition := by
  have hlast : s'.lastResponseData = rd.customData := by
    simp only [parseResponse, hbody, hparse] at hok
    rcases hcl : convertLoop resp.header rAt s.buffer rd.records with ⟨buf, err⟩
    rw [hcl] at hok
    cases err with
    | none =>
      have h1 : ({ s with buffer := buf, lastResponseData := rd.customData } : SourceState)
          = s' := congrArg Prod.fst hok
      rw [← h1]
    | some e => exact absurd (congrArg Prod.snd hok) (by simp)
  exact ⟨hlast, by simp only [getRequestData, hlast]⟩

/-- Parser setting the nextPageToken carry value, for the C1 witness. -/
def pfW1 : ParseFn :=
  fun _ => .ok { customData := [("nextPageToken", GoValue.str "tok2")], records := [] }

/-- First-cycle response for the C1 witness. -/
def respW1 : HttpResponse := { statusCode := 200, header := [], body := some "page1" }

/-- Builder reading the carried nextPageToken, for the C1 witness. -/
def bW1 : BuilderFn := fun prev _ =>
  match lookupAssoc prev "nextPageToken" with
  | some (GoValue.str t) => .ok { url := "https://api.example.com?pageToken=" ++ t }
  | _ => .ok { url := "https://api.example.com" }

/-- State left by the first C1 witness cycle. -/
def sW1' : SourceState := (parseResponse (some pfW1) respW1 3 4 sEmpty).1

/-- Witness for C1: after a first cycle whose parser set
nextPageToken = "tok2", the next builder call receives exactly that
map. -/
theorem parseResponse_carry_chain_witness :
    sW1'.lastResponseData = [("nextPageToken", GoValue.str "tok2")] ∧
    getRequestData "u" (some bW1) sW1'
      = bW1 [("nextPageToken", GoValue.str "tok2")] sW1'.lastPosition :=
  parseResponse_carry_chain pfW1 respW1 "page1"
    { customData := [("nextPageToken", GoValue.str "tok2")], records := [] }
    3 4 sEmpty sW1' "u" bW1 rfl rfl rfl

/-- C2: with no parser configured, a successful response appends exactly
one record: Payload.Before absent, Payload.After the raw body,
Operation create, Position and Key derived from the wall-clock Unix
timestamp, and Metadata with every response header (multi-valued
headers comma-joined) plus the read-timestamp entry. -/
theorem parseResponse_fallback_single_record
    (resp : HttpResponse) (body : String) (nowU rAt : Int) (s : SourceState)
    (hbody : resp.body = some body)
    (hnodup : (resp.header.map Prod.fst).Nodup) :
    parseResponse none resp nowU rAt s
      = ({ s with buffer := s.buffer ++ [parseAsSingleRecord resp.header body nowU rAt] },
         none) ∧
    (parseAsSingleRecord resp.header body nowU rAt).payload.before = none ∧
    (parseAsSingleRecord resp.header body nowU rAt).payload.after = some (.raw body) ∧
    (parseAsSingleRecord resp.header body nowU rAt).operation = .create ∧
    (parseAsSingleRecord resp.header body nowU rAt).position = "unix-" ++ toString nowU ∧
    (parseAsSingleRecord resp.header body nowU rAt).key = some (.raw (toString nowU)) ∧
    lookupAssoc (parseAsSingleRecord resp.header body nowU rAt).metadata readAtKey
      = some (toString rAt) ∧
    (∀ (k : String) (vs : List String), (k, vs) ∈ resp.header → k ≠ readAtKey →
      lookupAssoc (parseAsSingleRecord resp.header body nowU rAt).metadata k
        = some (joinComma vs)) := by
  refine ⟨by simp only [parseResponse, hbody], rfl, rfl, rfl, rfl, rfl, ?_, ?_⟩
  · exact lookupAssoc_setAssoc_self _ _ _
  · intro k vs hmem hne
    show lookupAssoc (headersToMetadata resp.header rAt) k = _
    rw [headersToMetadata, lookupAssoc_setAssoc_ne _ _ _ _ hne]
    exact lookup_foldl_headers_mem resp.header [] k vs hnodup hmem

/-- Response with body "hello" and header X-Foo: bar, for the C2
witness. -/
def respW2 : HttpResponse :=
  { statusCode := 200, header := [("X-Foo", ["bar"])], body := some "hello" }

/-- Witness for C2 at body "hello" with header X-Foo: bar (property P3),
taking the Unix clock at 1700000000 and the read-at clock at
1700000000000000000. -/
theorem parseResponse_fallback_single_record_witness :
    parseResponse none respW2 1700000000 1700000000000000000 sEmpty
      = ({ sEmpty with
            buffer := [parseAsSingleRecord respW2.header "hello"
                         1700000000 1700000000000000000] },
         none) ∧
    (parseAsSingleRecord respW2.header "hello"
        1700000000 1700000000000000000).payload.before = none ∧
    (parseAsSingleRecord respW2.header "hello"
        1700000000 1700000000000000000).payload.after = some (.raw "hello") ∧
    (parseAsSingleRecord respW2.header "hello"
        1700000000 1700000000000000000).operation = .create ∧
    (parseAsSingleRecord respW2.header "hello"
        1700000000 1700000000000000000).position = "unix-" ++ toString (1700000000 : Int) ∧
    (parseAsSingleRecord respW2.header "hello"
        1700000000 1700000000000000000).key = some (.raw (toString (1700000000 : Int))) ∧
    lookupAssoc (parseAsSingleRecord respW2.header "hello"
        1700000000 1700000000000000000).metadata readAtKey
      = some (toString (1700000000000000000 : Int)) ∧
    (∀ (k : String) (vs : List String), (k, vs) ∈ respW2.header → k ≠ readAtKey →
      lookupAssoc (parseAsSingleRecord respW2.header "hello"
          1700000000 1700000000000000000).metadata k
        = some (joinComma vs)) :=
  parseResponse_fallback_single_record respW2 "hello" 1700000000 1700000000000000000
    sEmpty rfl (by decide)

/-- The conversion loop on `good ++ bad :: rest` where every record of
`good` converts (to `goodRecs`, element-wise) and `bad` fails: the
converted prefix stays appended and the loop stops with the wrapped
conversion error. -/
theorem convertLoop_append_error
    (hd : List (String × List String)) (rAt : Int)
    (good : List JsRecord) (goodRecs : List Record) (bad : JsRecord)
    (rest : List JsRecord) (buf : List Record) (e : String)
    (hgood : List.Forall₂ (fun jr r => toSDKRecord jr hd rAt = .ok r) good goodRecs)
    (hbad : toSDKRecord bad hd rAt = .error e) :
    convertLoop hd rAt buf (good ++ bad :: rest)
      = (buf ++ goodRecs,
         some ("failed converting JS record to opencdc.Record: " ++ e)) := by
  induction hgood generalizing buf with
  | nil => simp only [List.nil_append, convertLoop, hbad, List.append_nil]
  | @cons jr r jrs rs hjr htail ih =>
    simp only [List.cons_append, convertLoop, hjr]
    simp only [List.append_eq]
    rw [ih (buf ++ [r])]
    simp

/-- C10: when the k-th parsed record fails to convert, the cycle errors,
but the first k-1 converted records remain appended to the buffer while
`lastResponseData` keeps its old value — the carry-chain state advances
only on a fully successful cycle. -/
theorem parseResponse_failed_cycle_keeps_converted
    (pf : ParseFn) (resp : HttpResponse) (body : String) (rd : Response)
    (good : List JsRecord) (goodRecs : List Record) (bad : JsRecord)
    (rest : List JsRecord) (nowU rAt : Int) (s : SourceState) (e : String)
    (hbody : resp.body = some body)
    (hpf : pf body = .ok rd)
    (hrecs : rd.records = good ++ bad :: rest)
    (hgood : List.Forall₂ (fun jr r => toSDKRecord jr resp.header rAt = .ok r) good goodRecs)
    (hbad : toSDKRecord bad resp.header rAt = .error e) :
    parseResponse (some pf) resp nowU rAt s
      = ({ s with buffer := s.buffer ++ goodRecs },
         some ("failed converting JS record to opencdc.Record: " ++ e)) ∧
    ({ s with buffer := s.buffer ++ goodRecs } : SourceState).lastResponseData
      = s.lastResponseData := by
  have hcl := convertLoop_append_error resp.header rAt good goodRecs bad rest s.buffer e
    hgood hbad
  exact ⟨by simp only [parseResponse, hbody, hpf, hrecs, hcl], rfl⟩

/-- Good first record for the C10 witness. -/
def goodW : JsRecord := { operation := "update" }

/-- Failing second record for the C10 witness. -/
def badW : JsRecord := { operation := "frobnicate" }

/-- The conversion of `goodW` against empty headers at read-at clock 0. -/
def goodRecW : Record :=
  { position := "", operation := .update,
    metadata := mapsCopy (headersToMetadata [] 0) [],
    key := none, payload := { before := none, after := none } }

/-- Parser output whose second record fails to convert, with a CustomData
value that must NOT be carried over. -/
def rdW10 : Response :=
  { customData := [("nextPageToken", GoValue.str "tokX")], records := [goodW, badW] }

/-- Parser returning `rdW10`, for the C10 witness. -/
def pfW10 : ParseFn := fun _ => .ok rdW10

/-- Successful response carrying the C10 witness body. -/
def respW10 : HttpResponse := { statusCode := 200, header := [], body := some "b10" }

/-- Witness for C10: the first record stays buffered, the cycle errors,
and `lastResponseData` is not advanced to the parser's CustomData. -/
theorem parseResponse_failed_cycle_keeps_converted_witness :
    parseResponse (some pfW10) respW10 0 0 sEmpty
      = ({ sEmpty with buffer := [goodRecW] },
         some ("failed converting JS record to opencdc.Record: " ++
           ("could not unmarshal operation: " ++
             ("operation " ++ "frobnicate" ++ " does not belong to Operation values")))) ∧
    ({ sEmpty with buffer := [goodRecW] } : SourceState).lastResponseData
      = sEmpty.lastResponseData :=
  parseResponse_failed_cycle_keeps_converted pfW10 respW10 "b10" rdW10
    [goodW] [goodRecW] badW [] 0 0 sEmpty
    ("could not unmarshal operation: " ++
      ("operation " ++ "frobnicate" ++ " does not belong to Operation values"))
    rfl rfl rfl (List.Forall₂.cons rfl List.Forall₂.nil) rfl

/-- Script that smuggles a value through the runtime's globals: on a
fresh context it finds nothing, stores "tok" and returns URL "unset";
on a context where a prior call ran it returns the observed value. -/
def leakScript : BuildScript := fun g _ _ =>
  match lookupAssoc g "smuggled" with
  | none => (setAssoc g "smuggled" (GoValue.str "tok"),
             .ok { typeName := "*goja.Object", exported := .request { url := "unset" } })
  | some (GoValue.str s) =>
    (g, .ok { typeName := "*goja.Object", exported := .request { url := "observed-" ++ s } })
  | some _ =>
    (g, .ok { typeName := "*goja.Object", exported := .request { url := "observed-nonstring" } })

/-- C9 counterexample: the request builder holds one goja context reused
by every call, so the second sequential invocation of `leakScript`
observes the global set by the first — it returns "observed-tok"
instead of the fresh-context result "unset". -/
theorem pool_isolation_counterexample :
    (jsBuilderCall leakScript
        (jsBuilderCall leakScript (newJSRequestBuilder []) [] "").1 [] "").2
      = .ok { url := "observed-tok" } ∧
    (jsBuilderCall leakScript (newJSRequestBuilder []) [] "").2 = .ok { url := "unset" } ∧
    ({ url := "observed-tok" } : Request) ≠ { url := "unset" } := by
  refine ⟨rfl, rfl, fun h => absurd (congrArg Request.url h) (by decide)⟩

/-- C9 amended: isolation holds across distinct contexts, not across
sequential calls in one context — the builder's and the parser's
contexts are independent, so a builder call can never change what a
parser call observes (and vice versa), while within one builder the
context (and any script-global state) is carried from call to call. -/
theorem cross_context_isolation
    (bscript : BuildScript) (pscript : ParseScript) (st : JsBridge)
    (prev : List (String × GoValue)) (pos : String) (bytes : String) :
    (bridgeParse pscript (bridgeBuild bscript st prev pos).1 bytes).2
      = (bridgeParse pscript st bytes).2 ∧
    (bridgeBuild bscript (bridgeParse pscript st bytes).1 prev pos).2
      = (bridgeBuild bscript st prev pos).2 :=
  ⟨rfl, rfl⟩

end Conn
